import Mathlib

/-!
# Verification of the mera-learn core against its specification

Shallow embedding of the progress-merge logic of
`src/archive/py-archive/py/components/basic_task.py` and of the
curriculum-registry builder `src/dev/py/registry_builder.py`, with
theorems settling the specification's claims about them.
-/

set_option autoImplicit false

namespace MeraLearn

/-! ## Embedding of `basic_task.py` -/

/-- `CheckboxItem` from `basic_task.py`: one checkbox with its content and a
required flag (defaulting to optional). -/
structure CheckboxItem where
  content : String
  required : Bool
deriving Repr, DecidableEq

/-- `BasicTaskComponentConfig`: the inherited base fields (id, type,
accessibility_label, order) plus the task-specific title, description and
checkbox list. -/
structure BasicTaskComponentConfig where
  id : Nat
  type : String
  accessibility_label : String
  order : Int
  title : String
  description : String
  checkboxes : List CheckboxItem
deriving Repr, DecidableEq

/-- The `checkbox_checked` trump strategy from
`BasicTaskComponentProgress.get_all_trump_strategies`:
`lambda a, b: [x or y for x, y in zip_longest(a, b, fillvalue=False)]`.
Pairs the two lists up to the longer length, padding the shorter one with
`False`, and ORs each pair. -/
def zipLongestOr : List Bool → List Bool → List Bool
  | [], b => b.map (fun y => false || y)
  | x :: xs, [] => (x || false) :: zipLongestOr xs []
  | x :: xs, y :: ys => (x || y) :: zipLongestOr xs ys

/-- `get_all_trump_strategies`: the per-field reducer table of
`BasicTaskComponentProgress` — one entry, for `checkbox_checked`. -/
def get_all_trump_strategies : List (String × (List Bool → List Bool → List Bool)) :=
  [("checkbox_checked", zipLongestOr)]

/-- `BasicTaskComponentProgress.set_checkbox_state`: raises (here: returns
`.error`) when the index is out of range or the stored arity disagrees with
the config's checkbox count; otherwise sets the indexed slot. -/
def set_checkbox_state (config : BasicTaskComponentConfig)
    (checkbox_checked : List Bool) (index : Nat) (checked : Bool) :
    Except String (List Bool) :=
  if config.checkboxes.length ≤ index then
    .error ("Checkbox index " ++ toString index ++ " out of range")
  else if checkbox_checked.length ≠ config.checkboxes.length then
    .error ("Progress has " ++ toString checkbox_checked.length ++
      " checkboxes, config expects " ++ toString config.checkboxes.length)
  else
    .ok (checkbox_checked.set index checked)

/-- `BasicTaskComponentProgress.create_fields_for_config`: the declared
default progress for a config — one `False` per checkbox. -/
def create_fields_for_config (config : BasicTaskComponentConfig) : List Bool :=
  List.replicate config.checkboxes.length false

/-! ### Lemmas about `zipLongestOr` -/

theorem zipLongestOr_nil_left (b : List Bool) : zipLongestOr [] b = b := by
  simp [zipLongestOr]

theorem zipLongestOr_nil_right : ∀ a : List Bool, zipLongestOr a [] = a
  | [] => rfl
  | x :: xs => by simp [zipLongestOr, zipLongestOr_nil_right xs]

theorem zipLongestOr_length :
    ∀ a b : List Bool, (zipLongestOr a b).length = max a.length b.length
  | [], b => by simp [zipLongestOr]
  | _ :: xs, [] => by
    simp [zipLongestOr, zipLongestOr_length xs []]
  | _ :: xs, _ :: ys => by
    simp [zipLongestOr, zipLongestOr_length xs ys, Nat.succ_max_succ]

theorem zipLongestOr_getD :
    ∀ (a b : List Bool) (i : Nat),
      (zipLongestOr a b).getD i false = (a.getD i false || b.getD i false)
  | [], b, i => by
    simp [zipLongestOr_nil_left]
  | x :: xs, [], i => by
    cases i with
    | zero => simp [zipLongestOr]
    | succ n => simpa [zipLongestOr] using zipLongestOr_getD xs [] n
  | x :: xs, y :: ys, i => by
    cases i with
    | zero => simp [zipLongestOr]
    | succ n => simpa [zipLongestOr] using zipLongestOr_getD xs ys n

theorem zipLongestOr_comm :
    ∀ a b : List Bool, zipLongestOr a b = zipLongestOr b a
  | [], b => by simp [zipLongestOr_nil_left, zipLongestOr_nil_right]
  | _ :: xs, [] => by simp [zipLongestOr_nil_left, zipLongestOr_nil_right]
  | x :: xs, y :: ys => by
    simp [zipLongestOr, zipLongestOr_comm xs ys, Bool.or_comm]

theorem zipLongestOr_idem_right :
    ∀ a b : List Bool, zipLongestOr (zipLongestOr a b) b = zipLongestOr a b
  | [], b => by
    simp [zipLongestOr_nil_left]
    induction b with
    | nil => rfl
    | cons y ys ih => simp [zipLongestOr, ih]
  | x :: xs, [] => by
    simp [zipLongestOr_nil_right, zipLongestOr]
  | x :: xs, y :: ys => by
    simp [zipLongestOr, zipLongestOr_idem_right xs ys, Bool.or_assoc]

/-! ### Claim C1 -/

/-- **C1.** Merging the `checkbox_checked` field with its declared trump
strategy yields a list of length `max (len a) (len b)` whose `i`-th element
is `a[i] || b[i]` for every `i` below the longer length, with indices past
the shorter list's end read as `false`; and merging `[true, false]` with
`[false, false, true]` yields `[true, false, true]`. -/
theorem checkbox_merge_elementwise_or (a b : List Bool) :
    (zipLongestOr a b).length = max a.length b.length ∧
    (∀ i : Nat, i < max a.length b.length →
      (zipLongestOr a b).getD i false = (a.getD i false || b.getD i false)) ∧
    zipLongestOr [true, false] [false, false, true] = [true, false, true] := by
  refine ⟨zipLongestOr_length a b, fun i _ => zipLongestOr_getD a b i, ?_⟩
  decide

/-- Witness for C1 at the spec's concrete checkbox lists. -/
theorem checkbox_merge_elementwise_or_witness :
    (zipLongestOr [true, false] [false, false, true]).length = 3 ∧
    (zipLongestOr [true, false] [false, false, true]).getD 2 false =
      (([true, false].getD 2 false) || ([false, false, true].getD 2 false)) ∧
    zipLongestOr [true, false] [false, false, true] = [true, false, true] :=
  ⟨(checkbox_merge_elementwise_or [true, false] [false, false, true]).1,
   (checkbox_merge_elementwise_or [true, false] [false, false, true]).2.1 2 (by decide),
   (checkbox_merge_elementwise_or [true, false] [false, false, true]).2.2⟩

/-! ### Claim C2 -/

/-- **C2.** The `checkbox_checked` reducer is commutative and idempotent:
`merge a b = merge b a` and `merge (merge a b) b = merge a b` for all
boolean-list snapshots. -/
theorem checkbox_merge_comm_idem (a b : List Bool) :
    zipLongestOr a b = zipLongestOr b a ∧
    zipLongestOr (zipLongestOr a b) b = zipLongestOr a b :=
  ⟨zipLongestOr_comm a b, zipLongestOr_idem_right a b⟩

/-! ### Claim C3 -/

/-- A concrete two-checkbox config for the counterexamples. -/
def exampleConfig : BasicTaskComponentConfig where
  id := 501
  type := "basic_task"
  accessibility_label := "task"
  order := 100
  title := "t"
  description := "d"
  checkboxes := [⟨"a", true⟩, ⟨"b", false⟩]

/-- **C3, counterexample.** With a stored snapshot of arity 1 against a
config of arity 2, `set_checkbox_state` raises an arity-mismatch error to
the caller rather than repairing, and the merge reducer produces a list of
the longer input's length (3), not the config's arity (2): the value is
never truncated to match the config. -/
theorem arity_mismatch_raises_counterexample :
    set_checkbox_state exampleConfig [true] 0 true =
      .error "Progress has 1 checkboxes, config expects 2" ∧
    (zipLongestOr [true] [false, false, true]).length ≠
      exampleConfig.checkboxes.length := by
  constructor
  · rfl
  · decide

/-- **C3, amended.** On an arity mismatch the reducer pads the shorter list
with `false` up to the longer length (so the merged length is the max of the
two inputs, never truncated to the config's arity), while
`set_checkbox_state` raises an error to the caller whenever the stored arity
disagrees with the config's checkbox count: no silent repair to the config's
arity is performed. -/
theorem arity_mismatch_behavior (config : BasicTaskComponentConfig)
    (stored : List Bool) (index : Nat) (checked : Bool)
    (hidx : index < config.checkboxes.length)
    (hmism : stored.length ≠ config.checkboxes.length) :
    set_checkbox_state config stored index checked =
      .error ("Progress has " ++ toString stored.length ++
        " checkboxes, config expects " ++ toString config.checkboxes.length) ∧
    ∀ b : List Bool, (zipLongestOr stored b).length = max stored.length b.length := by
  refine ⟨?_, fun b => zipLongestOr_length stored b⟩
  simp [set_checkbox_state, Nat.not_le.mpr hidx, hmism]

/-- Witness for C3's amended theorem at the concrete two-checkbox config. -/
theorem arity_mismatch_behavior_witness :
    (set_checkbox_state exampleConfig [true] 0 true =
      .error ("Progress has " ++ toString (1 : Nat) ++
        " checkboxes, config expects " ++ toString (2 : Nat))) ∧
    ∀ b : List Bool, (zipLongestOr [true] b).length = max 1 b.length :=
  arity_mismatch_behavior exampleConfig [true] 0 true (by decide) (by decide)

/-! ## Embedding of `registry_builder.py` -/

/-- One component reference inside a page of a content document: the
`id` and `type` keys read by `parse_all_entities`. Python truthiness makes
`id = 0` and `type = ""` behave as absent. -/
structure Component where
  id : Nat
  type : String
deriving Repr, DecidableEq

/-- One page of a content document: its `components` list. -/
structure Page where
  components : List Component
deriving Repr, DecidableEq

/-- The `metadata` block of an entity YAML document, with each key optional
as under `dict.get`. -/
structure Metadata where
  id : Option Nat
  title : Option String
  domainId : Option Nat
  difficulty : Option String
  estimatedMinutes : Option Nat
  required : Option Bool
deriving Repr, DecidableEq

/-- A content document: metadata plus pages of components. -/
structure Document where
  metadata : Metadata
  pages : List Page
deriving Repr, DecidableEq

/-- The entity-info dict built by `parse_entity_yaml` (the `path` key, pure
filesystem bookkeeping, is omitted). -/
structure EntityInfo where
  id : Nat
  title : String
  entityType : String
  pageCount : Nat
  componentCount : Nat
  difficulty : String
  estimatedMinutes : Nat
  required : Bool
  domainId : Option Nat
deriving Repr, DecidableEq

/-- `parse_entity_yaml`: reads the metadata, and returns `None` when
`metadata.get("id")` is falsy — absent **or** equal to `0`. `domainId` is
only added for lessons. -/
def parse_entity_yaml (doc : Document) (entity_type : String) : Option EntityInfo :=
  match doc.metadata.id with
  | none => none
  | some eid =>
    if eid = 0 then none
    else
      some {
        id := eid
        title := doc.metadata.title.getD ""
        entityType := entity_type
        pageCount := doc.pages.length
        componentCount := (doc.pages.map (fun p => p.components.length)).sum
        difficulty := doc.metadata.difficulty.getD "beginner"
        estimatedMinutes := doc.metadata.estimatedMinutes.getD 0
        required := doc.metadata.required.getD true
        domainId := if entity_type = "lesson" then doc.metadata.domainId else none }

/-- Python `set.add`: insert a key if not already present. -/
def setInsert (s : List Nat) (x : Nat) : List Nat :=
  if x ∈ s then s else s ++ [x]

/-- Python `d[k] = v` on a dict modelled as an association list: overwrite
the existing binding in place, else append. -/
def dictInsert {α : Type} : List (Nat × α) → Nat → α → List (Nat × α)
  | [], k, v => [(k, v)]
  | (k1, v1) :: rest, k, v =>
    if k1 = k then (k, v) :: rest else (k1, v1) :: dictInsert rest k v

/-- Python `d.get(k)` on the same association lists. -/
def dictLookup {α : Type} : List (Nat × α) → Nat → Option α
  | [], _ => none
  | (k1, v) :: rest, k => if k1 = k then some v else dictLookup rest k

/-- The mutable state threaded through `parse_all_entities`. -/
structure BuildState where
  all_entities : List EntityInfo
  entity_ids : List Nat
  component_ids : List Nat
  domain_lesson_map : List (Nat × List Nat)
  component_id_to_type : List (Nat × String)
  component_to_lesson_map : List (Nat × Nat)
deriving Repr, DecidableEq

/-- The empty state `parse_all_entities` starts from. -/
def initialState : BuildState :=
  { all_entities := []
    entity_ids := []
    component_ids := []
    domain_lesson_map := []
    component_id_to_type := []
    component_to_lesson_map := [] }

/-- The `ValueError` message raised on a component-type conflict. -/
def conflict_error (cid : Nat) (prev now : String) : String :=
  "FATAL: Component ID " ++ toString cid ++ " has conflicting types! " ++
    "Previously seen as: " ++ prev ++ " Now found as: " ++ now

/-- The map updates after the conflict check: record id → type always, and
id → owning entity only in the lesson loop (the menu loop omits it). -/
def updateMaps (isLesson : Bool) (eid : Nat) (st : BuildState) (c : Component) :
    BuildState :=
  { st with
    component_id_to_type := dictInsert st.component_id_to_type c.id c.type
    component_to_lesson_map :=
      if isLesson then dictInsert st.component_to_lesson_map c.id eid
      else st.component_to_lesson_map }

/-- The inner `for component in page.get("components", [])` loop: skip when
`comp_id and comp_type` is falsy; else add the id to the component-id set,
raise on a type conflict, else record the maps. (Python adds the id to its
in-memory set before raising; the raise aborts the whole build, so that
intermediate state is unobservable and the add is folded into the
non-raising continuation here.) -/
def recordComponents (isLesson : Bool) (eid : Nat) (st : BuildState) :
    List Component → Except String BuildState
  | [] => .ok st
  | c :: rest =>
    if c.id ≠ 0 ∧ c.type ≠ "" then
      match dictLookup st.component_id_to_type c.id with
      | some prev =>
        if prev ≠ c.type then .error (conflict_error c.id prev c.type)
        else
          recordComponents isLesson eid
            (updateMaps isLesson eid
              { st with component_ids := setInsert st.component_ids c.id } c) rest
      | none =>
        recordComponents isLesson eid
          (updateMaps isLesson eid
            { st with component_ids := setInsert st.component_ids c.id } c) rest
    else recordComponents isLesson eid st rest

/-- The `for page in data.get("pages", [])` loop. -/
def recordPages (isLesson : Bool) (eid : Nat) (st : BuildState) :
    List Page → Except String BuildState
  | [] => .ok st
  | p :: ps =>
    match recordComponents isLesson eid st p.components with
    | .error e => .error e
    | .ok st1 => recordPages isLesson eid st1 ps

/-- `domain_lesson_map` update: create the entry if missing, then append. -/
def domainAppend (m : List (Nat × List Nat)) (d eid : Nat) : List (Nat × List Nat) :=
  match dictLookup m d with
  | none => dictInsert m d [eid]
  | some l => dictInsert m d (l ++ [eid])

/-- One iteration of the lessons loop of `parse_all_entities`: skip when
`parse_entity_yaml` yields nothing; on a duplicate entity id print an error
and `continue` (state unchanged); otherwise record the entity, scan its
components (raising on type conflicts), then map its domain when
`entity_info.get("domainId")` is truthy. -/
def process_lesson (st : BuildState) (doc : Document) : Except String BuildState :=
  match parse_entity_yaml doc "lesson" with
  | none => .ok st
  | some info =>
    if info.id ∈ st.entity_ids then .ok st
    else
      let st1 := { st with
        entity_ids := setInsert st.entity_ids info.id
        all_entities := st.all_entities ++ [info] }
      match recordPages true info.id st1 doc.pages with
      | .error e => .error e
      | .ok st2 =>
        match info.domainId with
        | some d =>
          if d ≠ 0 then
            .ok { st2 with domain_lesson_map := domainAppend st2.domain_lesson_map d info.id }
          else .ok st2
        | none => .ok st2

/-- One iteration of the menus loop of `parse_all_entities`: as for lessons
but with entity type `"menu"`, no domain mapping, and — unlike the lesson
loop — no `component_to_lesson_map` update. -/
def process_menu (st : BuildState) (doc : Document) : Except String BuildState :=
  match parse_entity_yaml doc "menu" with
  | none => .ok st
  | some info =>
    if info.id ∈ st.entity_ids then .ok st
    else
      let st1 := { st with
        entity_ids := setInsert st.entity_ids info.id
        all_entities := st.all_entities ++ [info] }
      recordPages false info.id st1 doc.pages

/-- Fold a per-document step over a document list, propagating a raised
error (which aborts the whole loop). -/
def processDocs (f : BuildState → Document → Except String BuildState) :
    BuildState → List Document → Except String BuildState
  | st, [] => .ok st
  | st, d :: ds =>
    match f st d with
    | .error e => .error e
    | .ok st1 => processDocs f st1 ds

/-- `parse_all_entities`: the lessons loop followed by the menus loop. -/
def parse_all_entities (lessons menus : List Document) : Except String BuildState :=
  match processDocs process_lesson initialState lessons with
  | .error e => .error e
  | .ok st => processDocs process_menu st menus

/-- A TypeScript component file as seen by `scan_component_file`: which of
the six regex patterns matched (and what they captured), plus the file
stem. -/
structure ScanInfo where
  componentClass : Option String
  configSchema : Option String
  progressSchema : Option String
  typeName : Option String
  validatorFunction : Option String
  initializerFunction : Option String
  file : String
deriving Repr, DecidableEq

/-- A successfully scanned component registration record. -/
structure ComponentInfo where
  componentClass : String
  configSchema : String
  progressSchema : String
  typeName : String
  validatorFunction : Option String
  initializerFunction : String
  file : String
deriving Repr, DecidableEq

/-- `scan_component_file`: succeeds exactly when the five required exports
(class, config schema, progress schema, type tag, initializer) were all
found; the validator is optional. -/
def scan_component_file (s : ScanInfo) : Option ComponentInfo :=
  match s.componentClass, s.configSchema, s.progressSchema, s.typeName,
      s.initializerFunction with
  | some cc, some cs, some ps, some tn, some ini =>
    some {
      componentClass := cc
      configSchema := cs
      progressSchema := ps
      typeName := tn
      validatorFunction := s.validatorFunction
      initializerFunction := ini
      file := s.file }
  | _, _, _, _, _ => none

/-- `discover_components`: skip the `baseComponentCore` file, scan every
other file, and append every successful scan to the discovered list. -/
def discover_components (files : List ScanInfo) : List ComponentInfo :=
  (files.filter (fun s => s.file != "baseComponentCore")).filterMap
    scan_component_file

/-- The registry build pipeline of `main`: component discovery (phase 1)
followed by YAML content parsing (phase 3), whose outputs are then emitted
into the generated registry files. -/
def build (files : List ScanInfo) (lessons menus : List Document) :
    Except String (List ComponentInfo × BuildState) :=
  match parse_all_entities lessons menus with
  | .error e => .error e
  | .ok st => .ok (discover_components files, st)

/-- The `LessonMetrics` record of the generated registry. -/
structure LessonMetrics where
  pageCount : Nat
  componentCount : Nat
  title : String
  difficulty : String
deriving Repr, DecidableEq

/-- The state held by the generated `CurriculumRegistry` class. -/
structure CurriculumRegistry where
  lessonIds : List Nat
  domainMap : List (Nat × List Nat)
  componentIdToType : List (Nat × String)
  componentToLesson : List (Nat × Nat)
  lessonMetrics : List (Nat × LessonMetrics)
deriving Repr, DecidableEq

/-- `CurriculumRegistry.hasEntity`: set membership, a boolean. -/
def hasEntity (r : CurriculumRegistry) (entityId : Nat) : Bool :=
  r.lessonIds.contains entityId

/-- `CurriculumRegistry.hasComponent`: map membership, a boolean. -/
def hasComponent (r : CurriculumRegistry) (componentId : Nat) : Bool :=
  (dictLookup r.componentIdToType componentId).isSome

/-- `CurriculumRegistry.getComponentType`: `Map.get`, typed
`string | undefined` — an absent id yields `undefined` (`none`). -/
def getComponentType (r : CurriculumRegistry) (componentId : Nat) :
    Option String :=
  dictLookup r.componentIdToType componentId

/-- `CurriculumRegistry.getLessonIdForComponent` (the owning-entity query):
`Map.get`, typed `number | undefined` — an absent id yields `undefined`. -/
def getLessonIdForComponent (r : CurriculumRegistry) (componentId : Nat) :
    Option Nat :=
  dictLookup r.componentToLesson componentId

/-- `CurriculumRegistry.getEntityPageCount`: throws when the entity id has
no metrics entry, else returns the page count. -/
def getEntityPageCount (r : CurriculumRegistry) (entityId : Nat) :
    Except String Nat :=
  match dictLookup r.lessonMetrics entityId with
  | none =>
    .error ("Entity " ++ toString entityId ++
      " not found in registry. Cannot determine page count.")
  | some m => .ok m.pageCount

/-! ## Concrete fixtures -/

/-- A lesson document with entity id 10 declaring component 1 as
`basic_task`. -/
def docTypeA : Document :=
  ⟨⟨some 10, none, none, none, none, none⟩, [⟨[⟨1, "basic_task"⟩]⟩]⟩

/-- A lesson document with entity id 11 declaring component 1 as
`multiple_choice` (conflicting with `docTypeA`) followed by a fresh
component 2. -/
def docTypeB : Document :=
  ⟨⟨some 11, none, none, none, none, none⟩,
    [⟨[⟨1, "multiple_choice"⟩, ⟨2, "basic_task"⟩]⟩]⟩

/-- A lesson document that reuses entity id 10 (a second structural defect
after the type conflict of `docTypeB`). -/
def docTypeC : Document :=
  ⟨⟨some 10, none, none, none, none, none⟩, [⟨[]⟩]⟩

/-- A lesson document whose single page declares component 1 twice with two
different types, so processing it alone already raises. -/
def docSelfConflict : Document :=
  ⟨⟨some 99, none, none, none, none, none⟩,
    [⟨[⟨1, "basic_task"⟩, ⟨1, "multiple_choice"⟩]⟩]⟩

/-- A build state that has already recorded component 1 as `basic_task`. -/
def stWithBasicTask : BuildState :=
  { initialState with component_id_to_type := [(1, "basic_task")] }

/-- A lesson document with entity id 10 and title `"first"`. -/
def docFirst : Document :=
  ⟨⟨some 10, some "first", none, none, none, none⟩, []⟩

/-- A lesson document reusing entity id 10, with title `"second"`. -/
def docSecond : Document :=
  ⟨⟨some 10, some "second", none, none, none, none⟩, []⟩

/-- A lesson document with the fresh entity id 11. -/
def docThird : Document :=
  ⟨⟨some 11, none, none, none, none, none⟩, []⟩

/-! ### Claim C4 -/

/-- **C4, counterexample.** Ingesting `docTypeA`, then `docTypeB` (component
1 reappears as a different type), then `docTypeC` (a further defect: entity
id 10 reused): the build raises at the first type conflict and returns that
single error. No diagnostic is recorded for later processing: component 2 of
`docTypeB` and the duplicate-id defect of `docTypeC` are never reached, so
the structural defects of the build are *not* collected and reported
together — contrary to the claim that the builder records a `TypeConflict`
diagnostic and continues. -/
theorem type_conflict_counterexample :
    parse_all_entities [docTypeA, docTypeB, docTypeC] [] =
      .error (conflict_error 1 "basic_task" "multiple_choice") := by
  rfl

/-- **C4, amended.** When the builder encounters a component id whose
recorded type differs from the current occurrence's type, it raises a fatal
error naming the id and both types and aborts immediately: the remaining
components of the page are not processed (the result is the error for every
continuation `rest`), and a raised error propagates out of the document
loop, so the remaining documents are not processed either. -/
theorem type_conflict_aborts (isLesson : Bool) (eid : Nat) (st : BuildState)
    (c : Component) (prev : String) (rest : List Component)
    (f : BuildState → Document → Except String BuildState)
    (st2 : BuildState) (d : Document) (ds : List Document) (e : String)
    (hid : c.id ≠ 0) (hty : c.type ≠ "")
    (hprev : dictLookup st.component_id_to_type c.id = some prev)
    (hne : prev ≠ c.type)
    (hf : f st2 d = .error e) :
    recordComponents isLesson eid st (c :: rest) =
      .error (conflict_error c.id prev c.type) ∧
    processDocs f st2 (d :: ds) = .error e := by
  constructor
  · simp [recordComponents, hid, hty, hprev, hne]
  · simp [processDocs, hf]

/-- Witness for C4's amended theorem: the conflict of component 1 seen as
`basic_task` and re-declared `multiple_choice`, and the abort of the
document loop after `docSelfConflict` raises. -/
theorem type_conflict_aborts_witness :
    recordComponents true 11 stWithBasicTask
        (⟨1, "multiple_choice"⟩ :: [⟨2, "basic_task"⟩]) =
      .error (conflict_error 1 "basic_task" "multiple_choice") ∧
    processDocs process_lesson initialState (docSelfConflict :: [docThird]) =
      .error (conflict_error 1 "basic_task" "multiple_choice") :=
  type_conflict_aborts true 11 stWithBasicTask ⟨1, "multiple_choice"⟩
    "basic_task" [⟨2, "basic_task"⟩] process_lesson initialState
    docSelfConflict [docThird] (conflict_error 1 "basic_task" "multiple_choice")
    (by decide) (by decide) (by decide) (by decide) (by rfl)

/-! ### Claim C5 -/

/-- **C5, counterexample.** Two lesson documents share entity id 10
(`docFirst`, `docSecond`) and a third follows: the build does *not* abort —
it completes and produces a catalog, skipping the second occurrence (whose
title `"second"` appears nowhere) and still processing `docThird`. The first
occurrence's metadata is preserved, but the defect is non-fatal, contrary to
the claim that the build aborts with no validated catalog. -/
theorem duplicate_entity_counterexample :
    parse_all_entities [docFirst, docSecond, docThird] [] =
      .ok { all_entities := [
              ⟨10, "first", "lesson", 0, 0, "beginner", 0, true, none⟩,
              ⟨11, "", "lesson", 0, 0, "beginner", 0, true, none⟩]
            entity_ids := [10, 11]
            component_ids := []
            domain_lesson_map := []
            component_id_to_type := []
            component_to_lesson_map := [] } := by
  rfl

/-- **C5, amended.** A document whose entity id is already recorded is
skipped with a logged error and no state change: the first occurrence's
recorded metadata is untouched, and the document loop continues with the
remaining documents. The defect is non-fatal — the build still produces a
catalog. -/
theorem duplicate_entity_skipped (st : BuildState) (doc : Document)
    (info : EntityInfo) (ds : List Document)
    (hparse : parse_entity_yaml doc "lesson" = some info)
    (hdup : info.id ∈ st.entity_ids) :
    process_lesson st doc = .ok st ∧
    processDocs process_lesson st (doc :: ds) =
      processDocs process_lesson st ds := by
  have h1 : process_lesson st doc = .ok st := by
    simp [process_lesson, hparse, hdup]
  exact ⟨h1, by simp [processDocs, h1]⟩

/-- Witness for C5's amended theorem: `docSecond` re-uses entity id 10
already recorded by `docFirst`. -/
theorem duplicate_entity_skipped_witness :
    process_lesson
        { initialState with
          entity_ids := [10]
          all_entities := [⟨10, "first", "lesson", 0, 0, "beginner", 0, true, none⟩] }
        docSecond =
      .ok { initialState with
            entity_ids := [10]
            all_entities := [⟨10, "first", "lesson", 0, 0, "beginner", 0, true, none⟩] } ∧
    processDocs process_lesson
        { initialState with
          entity_ids := [10]
          all_entities := [⟨10, "first", "lesson", 0, 0, "beginner", 0, true, none⟩] }
        (docSecond :: [docThird]) =
      processDocs process_lesson
        { initialState with
          entity_ids := [10]
          all_entities := [⟨10, "first", "lesson", 0, 0, "beginner", 0, true, none⟩] }
        [docThird] :=
  duplicate_entity_skipped
    { initialState with
      entity_ids := [10]
      all_entities := [⟨10, "first", "lesson", 0, 0, "beginner", 0, true, none⟩] }
    docSecond ⟨10, "second", "lesson", 0, 0, "beginner", 0, true, none⟩ [docThird]
    (by decide) (by decide)

/-! ### Claim C6 -/

/-- The component loop of the *menus* branch of `parse_all_entities` never
writes `component_to_lesson_map`: that update only exists in the lessons
branch. -/
theorem recordComponents_menu_preserves_map (eid : Nat) :
    ∀ (cs : List Component) (st st2 : BuildState),
      recordComponents false eid st cs = .ok st2 →
      st2.component_to_lesson_map = st.component_to_lesson_map
  | [], st, st2, h => by
    simp only [recordComponents, Except.ok.injEq] at h
    rw [← h]
  | c :: rest, st, st2, h => by
    by_cases hc : c.id ≠ 0 ∧ c.type ≠ ""
    · simp only [recordComponents, if_pos hc] at h
      cases hl : dictLookup st.component_id_to_type c.id with
      | some prev =>
        simp only [hl] at h
        by_cases hp : prev ≠ c.type
        · simp only [if_pos hp] at h
          exact absurd h (by simp)
        · simp only [if_neg hp] at h
          have hrec := recordComponents_menu_preserves_map eid rest _ st2 h
          simpa [updateMaps] using hrec
      | none =>
        simp only [hl] at h
        have hrec := recordComponents_menu_preserves_map eid rest _ st2 h
        simpa [updateMaps] using hrec
    · simp only [recordComponents, if_neg hc] at h
      exact recordComponents_menu_preserves_map eid rest st st2 h

/-- The page loop of the menus branch never writes
`component_to_lesson_map`. -/
theorem recordPages_menu_preserves_map (eid : Nat) :
    ∀ (ps : List Page) (st st2 : BuildState),
      recordPages false eid st ps = .ok st2 →
      st2.component_to_lesson_map = st.component_to_lesson_map
  | [], st, st2, h => by
    simp only [recordPages, Except.ok.injEq] at h
    rw [← h]
  | p :: ps, st, st2, h => by
    simp only [recordPages] at h
    cases hr : recordComponents false eid st p.components with
    | error e =>
      rw [hr] at h
      exact absurd h (by simp)
    | ok st1 =>
      rw [hr] at h
      have h1 := recordComponents_menu_preserves_map eid p.components st st1 hr
      have h2 := recordPages_menu_preserves_map eid ps st1 st2 h
      rw [h2, h1]

/-- Looking up the key just written by `dictInsert` yields the new value:
each write overwrites the entry. -/
theorem dictLookup_dictInsert_self {α : Type} :
    ∀ (m : List (Nat × α)) (k : Nat) (v : α),
      dictLookup (dictInsert m k v) k = some v
  | [], k, v => by simp [dictInsert, dictLookup]
  | (k1, v1) :: rest, k, v => by
    by_cases h : k1 = k
    · simp [dictInsert, if_pos h, dictLookup]
    · simp [dictInsert, if_neg h, dictLookup,
        dictLookup_dictInsert_self rest k v]

/-- `dictInsert` leaves every other key's binding unchanged. -/
theorem dictLookup_dictInsert_ne {α : Type} :
    ∀ (m : List (Nat × α)) (k j : Nat) (v : α), j ≠ k →
      dictLookup (dictInsert m k v) j = dictLookup m j
  | [], k, j, v, h => by
    simp [dictInsert, dictLookup, if_neg (Ne.symm h)]
  | (k1, v1) :: rest, k, j, v, h => by
    by_cases h1 : k1 = k
    · subst h1
      simp [dictInsert, dictLookup, if_neg (Ne.symm h)]
    · simp [dictInsert, if_neg h1, dictLookup,
        dictLookup_dictInsert_ne rest k j v h]

/-- A truthy occurrence of component id `i` in a component list: an element
with that id which passes the `comp_id and comp_type` truthiness test, so
the component loop actually records it. -/
def occursIn (i : Nat) (cs : List Component) : Prop :=
  ∃ c ∈ cs, c.id = i ∧ c.id ≠ 0 ∧ c.type ≠ ""

/-- A truthy occurrence of component id `i` anywhere in a page list. -/
def occursInPages (i : Nat) (ps : List Page) : Prop :=
  ∃ p ∈ ps, occursIn i p.components

theorem occursIn_nil (i : Nat) : ¬occursIn i [] := by
  simp [occursIn]

theorem occursIn_cons (i : Nat) (c : Component) (rest : List Component) :
    occursIn i (c :: rest) ↔
      (c.id = i ∧ c.id ≠ 0 ∧ c.type ≠ "") ∨ occursIn i rest := by
  constructor
  · rintro ⟨x, hx, hP⟩
    rcases List.mem_cons.mp hx with rfl | hx2
    · exact Or.inl hP
    · exact Or.inr ⟨x, hx2, hP⟩
  · rintro (hP | ⟨x, hx, hP⟩)
    · exact ⟨c, List.mem_cons_self c rest, hP⟩
    · exact ⟨x, List.mem_cons_of_mem c hx, hP⟩

/-- A component id with no truthy occurrence in the list keeps its
reverse-index entry through the component loop (in both branches). -/
theorem recordComponents_preserves_other (isLesson : Bool) (eid i : Nat) :
    ∀ (cs : List Component) (st st2 : BuildState),
      recordComponents isLesson eid st cs = .ok st2 →
      ¬occursIn i cs →
      dictLookup st2.component_to_lesson_map i =
        dictLookup st.component_to_lesson_map i
  | [], st, st2, h, _ => by
    simp only [recordComponents, Except.ok.injEq] at h
    rw [← h]
  | c :: rest, st, st2, h, hno => by
    rw [occursIn_cons] at hno
    have hnohead : ¬(c.id = i ∧ c.id ≠ 0 ∧ c.type ≠ "") := fun hx =>
      hno (Or.inl hx)
    have hnorest : ¬occursIn i rest := fun hx => hno (Or.inr hx)
    by_cases hc : c.id ≠ 0 ∧ c.type ≠ ""
    · have hne : i ≠ c.id := fun he => hnohead ⟨he.symm, hc.1, hc.2⟩
      have hmap :
          dictLookup (updateMaps isLesson eid
            { st with component_ids := setInsert st.component_ids c.id } c).component_to_lesson_map i =
          dictLookup st.component_to_lesson_map i := by
        cases isLesson with
        | false => simp [updateMaps]
        | true =>
          simpa [updateMaps] using
            dictLookup_dictInsert_ne st.component_to_lesson_map c.id i eid hne
      simp only [recordComponents, if_pos hc] at h
      cases hl : dictLookup st.component_id_to_type c.id with
      | some prev =>
        simp only [hl] at h
        by_cases hp : prev ≠ c.type
        · simp only [if_pos hp] at h
          exact absurd h (by simp)
        · simp only [if_neg hp] at h
          have hrec := recordComponents_preserves_other isLesson eid i rest _ st2 h hnorest
          rw [hrec]
          exact hmap
      | none =>
        simp only [hl] at h
        have hrec := recordComponents_preserves_other isLesson eid i rest _ st2 h hnorest
        rw [hrec]
        exact hmap
    · simp only [recordComponents, if_neg hc] at h
      exact recordComponents_preserves_other isLesson eid i rest st st2 h hnorest

/-- In the lessons loop, a truthy occurrence of component id `i` forces the
reverse-index entry for `i` to the current lesson's entity id, whatever it
was before: each lesson occurrence overwrites the entry. -/
theorem recordComponents_lesson_writes (eid i : Nat) :
    ∀ (cs : List Component) (st st2 : BuildState),
      recordComponents true eid st cs = .ok st2 →
      occursIn i cs →
      dictLookup st2.component_to_lesson_map i = some eid
  | [], _, _, _, hocc => absurd hocc (occursIn_nil i)
  | c :: rest, st, st2, h, hocc => by
    by_cases hrest : occursIn i rest
    · by_cases hc : c.id ≠ 0 ∧ c.type ≠ ""
      · simp only [recordComponents, if_pos hc] at h
        cases hl : dictLookup st.component_id_to_type c.id with
        | some prev =>
          simp only [hl] at h
          by_cases hp : prev ≠ c.type
          · simp only [if_pos hp] at h
            exact absurd h (by simp)
          · simp only [if_neg hp] at h
            exact recordComponents_lesson_writes eid i rest _ st2 h hrest
        | none =>
          simp only [hl] at h
          exact recordComponents_lesson_writes eid i rest _ st2 h hrest
      · simp only [recordComponents, if_neg hc] at h
        exact recordComponents_lesson_writes eid i rest st st2 h hrest
    · rw [occursIn_cons] at hocc
      rcases hocc with ⟨hid, hcid, hcty⟩ | hocc2
      swap
      · exact absurd hocc2 hrest
      have hc : c.id ≠ 0 ∧ c.type ≠ "" := ⟨hcid, hcty⟩
      have hmap : ∀ s : BuildState,
          dictLookup (updateMaps true eid s c).component_to_lesson_map i =
            some eid := by
        intro s
        subst hid
        simpa [updateMaps] using
          dictLookup_dictInsert_self s.component_to_lesson_map c.id eid
      simp only [recordComponents, if_pos hc] at h
      cases hl : dictLookup st.component_id_to_type c.id with
      | some prev =>
        simp only [hl] at h
        by_cases hp : prev ≠ c.type
        · simp only [if_pos hp] at h
          exact absurd h (by simp)
        · simp only [if_neg hp] at h
          have hpres := recordComponents_preserves_other true eid i rest _ st2 h hrest
          rw [hpres]
          exact hmap _
      | none =>
        simp only [hl] at h
        have hpres := recordComponents_preserves_other true eid i rest _ st2 h hrest
        rw [hpres]
        exact hmap _

/-- Page-loop version of `recordComponents_preserves_other`. -/
theorem recordPages_preserves_other (isLesson : Bool) (eid i : Nat) :
    ∀ (ps : List Page) (st st2 : BuildState),
      recordPages isLesson eid st ps = .ok st2 →
      ¬occursInPages i ps →
      dictLookup st2.component_to_lesson_map i =
        dictLookup st.component_to_lesson_map i
  | [], st, st2, h, _ => by
    simp only [recordPages, Except.ok.injEq] at h
    rw [← h]
  | p :: ps, st, st2, h, hno => by
    have hnp : ¬occursIn i p.components := fun hx =>
      hno ⟨p, List.mem_cons_self p ps, hx⟩
    have hnps : ¬occursInPages i ps := by
      rintro ⟨q, hq, hqx⟩
      exact hno ⟨q, List.mem_cons_of_mem p hq, hqx⟩
    simp only [recordPages] at h
    cases hr : recordComponents isLesson eid st p.components with
    | error e =>
      simp only [hr] at h
      exact absurd h (by simp)
    | ok st1 =>
      simp only [hr] at h
      have h1 := recordComponents_preserves_other isLesson eid i p.components st st1 hr hnp
      have h2 := recordPages_preserves_other isLesson eid i ps st1 st2 h hnps
      rw [h2, h1]

/-- Page-loop version of `recordComponents_lesson_writes`: after the lessons
branch processes all pages, a component id occurring truthily somewhere in
them is mapped to the current lesson. -/
theorem recordPages_lesson_writes (eid i : Nat) :
    ∀ (ps : List Page) (st st2 : BuildState),
      recordPages true eid st ps = .ok st2 →
      occursInPages i ps →
      dictLookup st2.component_to_lesson_map i = some eid
  | [], _, _, _, hocc => by
    rcases hocc with ⟨p, hp, _⟩
    simp at hp
  | p :: ps, st, st2, h, hocc => by
    simp only [recordPages] at h
    cases hr : recordComponents true eid st p.components with
    | error e =>
      simp only [hr] at h
      exact absurd h (by simp)
    | ok st1 =>
      simp only [hr] at h
      by_cases hrest : occursInPages i ps
      · exact recordPages_lesson_writes eid i ps st1 st2 h hrest
      · have hpc : occursIn i p.components := by
          rcases hocc with ⟨q, hq, hqx⟩
          rcases List.mem_cons.mp hq with rfl | hq2
          · exact hqx
          · exact absurd ⟨q, hq2, hqx⟩ hrest
        have h1 := recordComponents_lesson_writes eid i p.components st st1 hr hpc
        have h2 := recordPages_preserves_other true eid i ps st1 st2 h hrest
        rw [h2]
        exact h1

/-- A processed (fresh-id) lesson document containing a truthy occurrence of
component id `i` leaves the reverse index mapping `i` to that lesson's
entity id. -/
theorem process_lesson_writes (st st2 : BuildState) (doc : Document)
    (info : EntityInfo) (i : Nat)
    (hparse : parse_entity_yaml doc "lesson" = some info)
    (hnew : info.id ∉ st.entity_ids)
    (hocc : occursInPages i doc.pages)
    (h : process_lesson st doc = .ok st2) :
    dictLookup st2.component_to_lesson_map i = some info.id := by
  unfold process_lesson at h
  simp only [hparse, if_neg hnew] at h
  cases hr : recordPages true info.id
      { st with
        entity_ids := setInsert st.entity_ids info.id
        all_entities := st.all_entities ++ [info] } doc.pages with
  | error e =>
    rw [hr] at h
    exact absurd h (by simp)
  | ok stM =>
    rw [hr] at h
    have h1 := recordPages_lesson_writes info.id i doc.pages _ stM hr hocc
    cases hd : info.domainId with
    | none =>
      simp only [hd, Except.ok.injEq] at h
      rw [← h]
      exact h1
    | some d =>
      simp only [hd] at h
      by_cases hz : d ≠ 0
      · simp only [if_pos hz, Except.ok.injEq] at h
        rw [← h]
        exact h1
      · simp only [if_neg hz, Except.ok.injEq] at h
        rw [← h]
        exact h1

/-- A lesson document with no truthy occurrence of `i` — including documents
that are skipped as unparsable or duplicate — leaves the reverse-index entry
for `i` unchanged. -/
theorem process_lesson_preserves_other (st st2 : BuildState) (doc : Document)
    (i : Nat) (hno : ¬occursInPages i doc.pages)
    (h : process_lesson st doc = .ok st2) :
    dictLookup st2.component_to_lesson_map i =
      dictLookup st.component_to_lesson_map i := by
  unfold process_lesson at h
  cases hp : parse_entity_yaml doc "lesson" with
  | none =>
    simp only [hp, Except.ok.injEq] at h
    rw [← h]
  | some info =>
    simp only [hp] at h
    by_cases hd : info.id ∈ st.entity_ids
    · simp only [if_pos hd, Except.ok.injEq] at h
      rw [← h]
    · simp only [if_neg hd] at h
      cases hr : recordPages true info.id
          { st with
            entity_ids := setInsert st.entity_ids info.id
            all_entities := st.all_entities ++ [info] } doc.pages with
      | error e =>
        rw [hr] at h
        exact absurd h (by simp)
      | ok stM =>
        rw [hr] at h
        have h1 := recordPages_preserves_other true info.id i doc.pages _ stM hr hno
        have hfin : st2.component_to_lesson_map = stM.component_to_lesson_map := by
          cases hdom : info.domainId with
          | none =>
            simp only [hdom, Except.ok.injEq] at h
            rw [← h]
          | some d =>
            simp only [hdom] at h
            by_cases hz : d ≠ 0
            · simp only [if_pos hz, Except.ok.injEq] at h
              rw [← h]
            · simp only [if_neg hz, Except.ok.injEq] at h
              rw [← h]
        rw [hfin]
        exact h1

/-- Document-loop version of `process_lesson_preserves_other`: lessons none
of which contain a truthy occurrence of `i` leave its reverse-index entry
unchanged. -/
theorem processDocs_lesson_preserves_other (i : Nat) :
    ∀ (ds : List Document) (st st2 : BuildState),
      processDocs process_lesson st ds = .ok st2 →
      (∀ d ∈ ds, ¬occursInPages i d.pages) →
      dictLookup st2.component_to_lesson_map i =
        dictLookup st.component_to_lesson_map i
  | [], st, st2, h, _ => by
    simp only [processDocs, Except.ok.injEq] at h
    rw [← h]
  | d :: ds, st, st2, h, hno => by
    simp only [processDocs] at h
    cases hl : process_lesson st d with
    | error e =>
      simp only [hl] at h
      exact absurd h (by simp)
    | ok st1 =>
      simp only [hl] at h
      have h1 := process_lesson_preserves_other st st1 d i
        (hno d (List.mem_cons_self d ds)) hl
      have h2 := processDocs_lesson_preserves_other i ds st1 st2 h
        (fun q hq => hno q (List.mem_cons_of_mem d hq))
      rw [h2, h1]

/-- One menu document never changes the reverse index. -/
theorem process_menu_preserves_map (st st2 : BuildState) (doc : Document)
    (h : process_menu st doc = .ok st2) :
    st2.component_to_lesson_map = st.component_to_lesson_map := by
  unfold process_menu at h
  cases hp : parse_entity_yaml doc "menu" with
  | none =>
    simp only [hp, Except.ok.injEq] at h
    rw [← h]
  | some info =>
    simp only [hp] at h
    by_cases hd : info.id ∈ st.entity_ids
    · simp only [if_pos hd, Except.ok.injEq] at h
      rw [← h]
    · simp only [if_neg hd] at h
      exact recordPages_menu_preserves_map info.id doc.pages
        { st with
          entity_ids := setInsert st.entity_ids info.id
          all_entities := st.all_entities ++ [info] } st2 h

/-- The whole menus loop never changes the reverse index. -/
theorem processDocs_menu_preserves_map :
    ∀ (ds : List Document) (st st2 : BuildState),
      processDocs process_menu st ds = .ok st2 →
      st2.component_to_lesson_map = st.component_to_lesson_map
  | [], st, st2, h => by
    simp only [processDocs, Except.ok.injEq] at h
    rw [← h]
  | d :: ds, st, st2, h => by
    simp only [processDocs] at h
    cases hm : process_menu st d with
    | error e =>
      simp only [hm] at h
      exact absurd h (by simp)
    | ok st1 =>
      simp only [hm] at h
      rw [processDocs_menu_preserves_map ds st1 st2 h,
        process_menu_preserves_map st st1 d hm]

/-- A lesson document with entity id 21 declaring component 501 as
`basic_task`. -/
def docOwnerFirst : Document :=
  ⟨⟨some 21, none, none, none, none, none⟩, [⟨[⟨501, "basic_task"⟩]⟩]⟩

/-- A second lesson document, entity id 22, declaring component 501 with the
same type `basic_task` (legitimate, non-conflicting reuse). -/
def docOwnerSecond : Document :=
  ⟨⟨some 22, none, none, none, none, none⟩, [⟨[⟨501, "basic_task"⟩]⟩]⟩

/-- A menu document, entity id 23, declaring component 601. -/
def docMenuOnly : Document :=
  ⟨⟨some 23, none, none, none, none, none⟩, [⟨[⟨601, "basic_task"⟩]⟩]⟩

/-- **C6, counterexample.** Component 501 occurs (with a consistent type) in
lessons 21 and then 22, and component 601 occurs only in menu 23. The built
reverse index maps 501 to 22 — the entity of its *last* occurrence, not the
first — and does not contain 601 at all, even though 601 is in the
component-id set: both halves of the claim fail. -/
theorem reverse_index_counterexample :
    parse_all_entities [docOwnerFirst, docOwnerSecond] [docMenuOnly] =
      .ok { all_entities := [
              ⟨21, "", "lesson", 1, 1, "beginner", 0, true, none⟩,
              ⟨22, "", "lesson", 1, 1, "beginner", 0, true, none⟩,
              ⟨23, "", "menu", 1, 1, "beginner", 0, true, none⟩]
            entity_ids := [21, 22, 23]
            component_ids := [501, 601]
            domain_lesson_map := []
            component_id_to_type := [(501, "basic_task"), (601, "basic_task")]
            component_to_lesson_map := [(501, 22)] } := by
  rfl

/-- **C6, amended.** The component-to-owning-entity reverse index maps a
component id recurring across lessons to the lesson in which it *last*
occurred, and menu processing never writes the reverse index at all, so a
component occurring only in menus is absent from it despite being in the
component-id set. Universally: for any build whose lessons list contains a
processed (fresh-id) document `doc` with a truthy occurrence of `i`, no
later lesson containing `i`, and any trailing menus, the final reverse index
maps `i` to `doc`'s entity id (each lesson occurrence overwrites the entry,
so the last one wins); and any successfully processed menu document leaves
the reverse index exactly as it was. The concrete fixture instantiates both
halves: 501 ↦ 22 (its last lesson), and menu-only 601 absent. -/
theorem reverse_index_last_wins_menus_absent
    (st0 st1 st2 mst mst2 : BuildState) (doc mdoc : Document)
    (post menus : List Document) (info : EntityInfo) (i : Nat)
    (hparse : parse_entity_yaml doc "lesson" = some info)
    (hnew : info.id ∉ st0.entity_ids)
    (hocc : occursInPages i doc.pages)
    (hpost : ∀ d ∈ post, ¬occursInPages i d.pages)
    (hlessons : processDocs process_lesson st0 (doc :: post) = .ok st1)
    (hmenus : processDocs process_menu st1 menus = .ok st2)
    (hmenu : process_menu mst mdoc = .ok mst2) :
    dictLookup st2.component_to_lesson_map i = some info.id ∧
    mst2.component_to_lesson_map = mst.component_to_lesson_map ∧
    (parse_all_entities [docOwnerFirst, docOwnerSecond] [docMenuOnly]).toOption.map
      (fun s => (dictLookup s.component_to_lesson_map 501,
                 dictLookup s.component_to_lesson_map 601)) =
      some (some 22, none) := by
  refine ⟨?_, process_menu_preserves_map mst mst2 mdoc hmenu, by rfl⟩
  simp only [processDocs] at hlessons
  cases hl : process_lesson st0 doc with
  | error e =>
    simp only [hl] at hlessons
    exact absurd hlessons (by simp)
  | ok stA =>
    simp only [hl] at hlessons
    have h1 := process_lesson_writes st0 stA doc info i hparse hnew hocc hl
    have h2 := processDocs_lesson_preserves_other i post stA st1 hlessons hpost
    have h3 := processDocs_menu_preserves_map menus st1 st2 hmenus
    rw [h3, h2, h1]

/-- Witness for C6's amended theorem: starting from the state left by lesson
21, lesson 22 is the last lesson containing component 501, menu 23 follows,
and the final reverse index maps 501 to 22; processing menu 23 from the
empty state leaves the reverse index untouched. -/
theorem reverse_index_last_wins_menus_absent_witness :
    dictLookup
      ({ all_entities := [
           ⟨21, "", "lesson", 1, 1, "beginner", 0, true, none⟩,
           ⟨22, "", "lesson", 1, 1, "beginner", 0, true, none⟩,
           ⟨23, "", "menu", 1, 1, "beginner", 0, true, none⟩]
         entity_ids := [21, 22, 23]
         component_ids := [501, 601]
         domain_lesson_map := []
         component_id_to_type := [(501, "basic_task"), (601, "basic_task")]
         component_to_lesson_map := [(501, 22)] } : BuildState).component_to_lesson_map 501 =
      some (⟨22, "", "lesson", 1, 1, "beginner", 0, true, none⟩ : EntityInfo).id ∧
    ({ all_entities := [⟨23, "", "menu", 1, 1, "beginner", 0, true, none⟩]
       entity_ids := [23]
       component_ids := [601]
       domain_lesson_map := []
       component_id_to_type := [(601, "basic_task")]
       component_to_lesson_map := [] } : BuildState).component_to_lesson_map =
      (initialState : BuildState).component_to_lesson_map ∧
    (parse_all_entities [docOwnerFirst, docOwnerSecond] [docMenuOnly]).toOption.map
      (fun s => (dictLookup s.component_to_lesson_map 501,
                 dictLookup s.component_to_lesson_map 601)) =
      some (some 22, none) :=
  reverse_index_last_wins_menus_absent
    ⟨[⟨21, "", "lesson", 1, 1, "beginner", 0, true, none⟩], [21], [501], [],
      [(501, "basic_task")], [(501, 21)]⟩
    ⟨[⟨21, "", "lesson", 1, 1, "beginner", 0, true, none⟩,
      ⟨22, "", "lesson", 1, 1, "beginner", 0, true, none⟩], [21, 22], [501],
      [], [(501, "basic_task")], [(501, 22)]⟩
    ⟨[⟨21, "", "lesson", 1, 1, "beginner", 0, true, none⟩,
      ⟨22, "", "lesson", 1, 1, "beginner", 0, true, none⟩,
      ⟨23, "", "menu", 1, 1, "beginner", 0, true, none⟩], [21, 22, 23],
      [501, 601], [], [(501, "basic_task"), (601, "basic_task")], [(501, 22)]⟩
    initialState
    ⟨[⟨23, "", "menu", 1, 1, "beginner", 0, true, none⟩], [23], [601], [],
      [(601, "basic_task")], []⟩
    docOwnerSecond docMenuOnly [] [docMenuOnly]
    ⟨22, "", "lesson", 1, 1, "beginner", 0, true, none⟩ 501
    (by rfl) (by decide)
    ⟨⟨[⟨501, "basic_task"⟩]⟩, by decide, ⟨501, "basic_task"⟩, by decide,
      rfl, by decide, by decide⟩
    (by simp) (by rfl) (by rfl) (by rfl)

/-! ### Claim C7 -/

/-- A lesson document, entity id 12, whose only component declares the type
string `"essay"`. -/
def docEssay : Document :=
  ⟨⟨some 12, none, none, none, none, none⟩, [⟨[⟨501, "essay"⟩]⟩]⟩

/-- **C7, counterexample.** Content references type `"essay"` while the
discovered component registry is empty: the build nevertheless succeeds,
records `501 ↦ "essay"` in the id-to-type map, and emits no diagnostic of
any kind — there is no `UnknownComponentType` cross-check anywhere in the
pipeline. -/
theorem unknown_type_counterexample :
    build [] [docEssay] [] =
      .ok ([],
        { all_entities := [⟨12, "", "lesson", 1, 1, "beginner", 0, true, none⟩]
          entity_ids := [12]
          component_ids := [501]
          domain_lesson_map := []
          component_id_to_type := [(501, "essay")]
          component_to_lesson_map := [(501, 12)] }) := by
  rfl

/-- **C7, amended.** The build never compares component type strings against
the discovered registry: for *any* discovered file set and any nonempty type
string, ingesting a lesson that declares a component of that type succeeds
and records the raw string in the id-to-type map, with no diagnostic. -/
theorem no_unknown_type_check (files : List ScanInfo) (eid : Nat)
    (c : Component) (heid : eid ≠ 0) (hcid : c.id ≠ 0) (hcty : c.type ≠ "") :
    build files [⟨⟨some eid, none, none, none, none, none⟩, [⟨[c]⟩]⟩] [] =
      .ok (discover_components files,
        { all_entities := [⟨eid, "", "lesson", 1, 1, "beginner", 0, true, none⟩]
          entity_ids := [eid]
          component_ids := [c.id]
          domain_lesson_map := []
          component_id_to_type := [(c.id, c.type)]
          component_to_lesson_map := [(c.id, eid)] }) := by
  simp [build, parse_all_entities, processDocs, process_lesson,
    parse_entity_yaml, heid, recordPages, recordComponents, hcid, hcty,
    dictLookup, updateMaps, setInsert, dictInsert, initialState]

/-- Witness for C7's amended theorem at the `"essay"` fixture. -/
theorem no_unknown_type_check_witness :
    build [] [⟨⟨some 12, none, none, none, none, none⟩,
        [⟨[(⟨501, "essay"⟩ : Component)]⟩]⟩] [] =
      .ok (discover_components [],
        { all_entities := [⟨12, "", "lesson", 1, 1, "beginner", 0, true, none⟩]
          entity_ids := [12]
          component_ids := [501]
          domain_lesson_map := []
          component_id_to_type := [(501, "essay")]
          component_to_lesson_map := [(501, 12)] }) :=
  no_unknown_type_check [] 12 ⟨501, "essay"⟩ (by decide) (by decide) (by decide)

/-! ### Claim C8 -/

/-- A scanned component file carrying type tag `basic_task` with config
schema `SchemaA`. -/
def scanTagA : ScanInfo :=
  ⟨some "BasicTaskManager", some "SchemaA", some "ProgressSchemaA",
   some "basic_task", none, some "createInitialProgress", "basicTaskA"⟩

/-- A second scanned file with the *same* type tag `basic_task` but a
structurally different descriptor (config schema `SchemaB`). -/
def scanTagB : ScanInfo :=
  ⟨some "BasicTaskManagerB", some "SchemaB", some "ProgressSchemaB",
   some "basic_task", none, some "createInitialProgress", "basicTaskB"⟩

/-- The registration record produced by scanning `scanTagA`. -/
def infoTagA : ComponentInfo :=
  ⟨"BasicTaskManager", "SchemaA", "ProgressSchemaA", "basic_task", none,
   "createInitialProgress", "basicTaskA"⟩

/-- The registration record produced by scanning `scanTagB`. -/
def infoTagB : ComponentInfo :=
  ⟨"BasicTaskManagerB", "SchemaB", "ProgressSchemaB", "basic_task", none,
   "createInitialProgress", "basicTaskB"⟩

/-- **C8, counterexample.** Registering type name `basic_task` twice with
structurally different descriptors (`SchemaA` vs `SchemaB`), and then a
third time with a descriptor identical to the first: discovery appends all
three records and produces no `DuplicateTypeConflict` — and the identical
re-registration is not a no-op either, since the registry grows from two
entries to three. -/
theorem duplicate_registration_counterexample :
    discover_components [scanTagA, scanTagB, scanTagA] =
      [infoTagA, infoTagB, infoTagA] ∧
    (discover_components [scanTagA, scanTagB, scanTagA]).length ≠
      (discover_components [scanTagA, scanTagB]).length := by
  constructor
  · rfl
  · decide

/-- **C8, amended.** Discovery performs no duplicate-type-name detection:
any two files whose required exports are present (and that are not the
skipped `baseComponentCore`) are both appended to the discovered list, in
order, whatever their type tags — identical or conflicting — and no error
is ever produced (the result type has no error case). -/
theorem discovery_no_duplicate_check (s1 s2 : ScanInfo)
    (c1 c2 : ComponentInfo)
    (hf1 : s1.file ≠ "baseComponentCore") (hf2 : s2.file ≠ "baseComponentCore")
    (h1 : scan_component_file s1 = some c1)
    (h2 : scan_component_file s2 = some c2) :
    discover_components [s1, s2] = [c1, c2] := by
  have hb1 : (s1.file != "baseComponentCore") = true := by
    simpa [bne_iff_ne] using hf1
  have hb2 : (s2.file != "baseComponentCore") = true := by
    simpa [bne_iff_ne] using hf2
  simp [discover_components, List.filter, List.filterMap, hb1, hb2, h1, h2]

/-- Witness for C8's amended theorem at the two conflicting `basic_task`
files. -/
theorem discovery_no_duplicate_check_witness :
    discover_components [scanTagA, scanTagB] = [infoTagA, infoTagB] :=
  discovery_no_duplicate_check scanTagA scanTagB infoTagA infoTagB
    (by decide) (by decide) (by rfl) (by rfl)

/-! ### Claim C9 -/

/-- A concrete registry for the query-surface claims. -/
def exampleRegistry : CurriculumRegistry where
  lessonIds := [21, 22, 23]
  domainMap := [(7, [21, 22])]
  componentIdToType := [(501, "basic_task"), (601, "basic_task")]
  componentToLesson := [(501, 22)]
  lessonMetrics := [(21, ⟨1, 1, "", "beginner"⟩)]

/-- **C9, counterexample.** For the absent id 999, `getComponentType` and
`getLessonIdForComponent` (the owning-entity query) return the sentinel
`undefined` (`none`) instead of failing with `NotFound` — contradicting the
claim that no query of the surface ever returns a sentinel for an absent
id. -/
theorem sentinel_query_counterexample :
    getComponentType exampleRegistry 999 = none ∧
    getLessonIdForComponent exampleRegistry 999 = none := by
  constructor <;> rfl

/-- **C9, amended.** For an id absent everywhere in the graph: `hasEntity`
and `hasComponent` answer the membership question with `false`, and
`getEntityPageCount` fails with a not-found error; but `getComponentType`
and the owning-entity query `getLessonIdForComponent` return the sentinel
`undefined` (`none`) rather than failing. -/
theorem absent_id_query_surface (r : CurriculumRegistry) (i : Nat)
    (he : i ∉ r.lessonIds)
    (hc : dictLookup r.componentIdToType i = none)
    (hl : dictLookup r.componentToLesson i = none)
    (hm : dictLookup r.lessonMetrics i = none) :
    hasEntity r i = false ∧
    hasComponent r i = false ∧
    getComponentType r i = none ∧
    getLessonIdForComponent r i = none ∧
    getEntityPageCount r i =
      .error ("Entity " ++ toString i ++
        " not found in registry. Cannot determine page count.") := by
  refine ⟨?_, ?_, hc, hl, ?_⟩
  · simpa [hasEntity] using he
  · simp [hasComponent, hc]
  · simp [getEntityPageCount, hm]

/-- Witness for C9's amended theorem at `exampleRegistry` and the absent
id 999. -/
theorem absent_id_query_surface_witness :
    hasEntity exampleRegistry 999 = false ∧
    hasComponent exampleRegistry 999 = false ∧
    getComponentType exampleRegistry 999 = none ∧
    getLessonIdForComponent exampleRegistry 999 = none ∧
    getEntityPageCount exampleRegistry 999 =
      .error ("Entity " ++ toString (999 : Nat) ++
        " not found in registry. Cannot determine page count.") :=
  absent_id_query_surface exampleRegistry 999 (by decide) (by decide)
    (by decide) (by decide)

/-! ### Claim C10 -/

/-- An entity document whose metadata id is present but equal to 0 — a value
inside the documented valid id range, yet falsy in Python. -/
def zeroIdDoc : Document :=
  ⟨⟨some 0, some "zero", none, none, none, none⟩, [⟨[⟨5, "basic_task"⟩]⟩]⟩

/-- **C10.** Presence tests use truthiness, not None-checks: an entity
document whose metadata id is 0 is skipped exactly as if the id were absent
(`parse_entity_yaml` yields nothing, and both document loops leave the state
unchanged with no diagnostic), and a component occurrence whose id is 0 or
whose type is the empty string is silently dropped — processing it is
identical to processing the remaining components, so it enters neither the
component-id set, nor the id-to-type map, nor the reverse index, and no
diagnostic is recorded. -/
theorem truthiness_zero_id_skipped (t : String) (doc : Document)
    (st : BuildState) (isLesson : Bool) (eid : Nat) (c : Component)
    (rest : List Component)
    (hdoc : doc.metadata.id = none ∨ doc.metadata.id = some 0)
    (hc : c.id = 0 ∨ c.type = "") :
    parse_entity_yaml doc t = none ∧
    process_lesson st doc = .ok st ∧
    process_menu st doc = .ok st ∧
    recordComponents isLesson eid st (c :: rest) =
      recordComponents isLesson eid st rest := by
  have hp : ∀ s : String, parse_entity_yaml doc s = none := by
    intro s
    rcases hdoc with h | h <;> simp [parse_entity_yaml, h]
  have hskip : ¬(c.id ≠ 0 ∧ c.type ≠ "") := by
    rcases hc with h | h <;> simp [h]
  refine ⟨hp t, ?_, ?_, ?_⟩
  · simp [process_lesson, hp]
  · simp [process_menu, hp]
  · simp [recordComponents, hskip]

/-- Witness for C10 at the id-0 document and an id-0 component. -/
theorem truthiness_zero_id_skipped_witness :
    parse_entity_yaml zeroIdDoc "lesson" = none ∧
    process_lesson initialState zeroIdDoc = .ok initialState ∧
    process_menu initialState zeroIdDoc = .ok initialState ∧
    recordComponents true 1 initialState [⟨0, "basic_task"⟩] =
      recordComponents true 1 initialState [] :=
  truthiness_zero_id_skipped "lesson" zeroIdDoc initialState true 1
    ⟨0, "basic_task"⟩ [] (Or.inr rfl) (Or.inl rfl)

end MeraLearn
